import Mathlib

/-!
Shallow embedding of the connection-and-execution core of the mcp-ssh-nas
repository (src/mcp_ssh_nas/client.py and src/mcp_ssh_nas/operations/files.py).

The remote side (paramiko) is modelled by an oracle `Env` describing, for each
primitive call the Python code makes, whether it returns normally or raises,
and with what value or exception.  Python exceptions are classified by which
`except` clause of `SSHClient.execute` would catch them.  Python dicts with
optional keys are modelled as structures with `Option` fields (a `none` field
is an absent key).
-/

/-- Abstract handle standing for a live paramiko SSHClient connection. -/
abbrev Session := Nat

/-- Abstract handle standing for the (stdin, stdout, stderr) stream triple
returned by exec_command. -/
abbrev Streams := Nat

/-- Classification of a raised Python exception by the handler that catches it
in SSHClient.execute: paramiko.AuthenticationException, any other
paramiko.SSHException, or any other Exception.  The string is str(e). -/
inductive PyExc where
  | authException (msg : String)
  | sshException (msg : String)
  | otherException (msg : String)
deriving Repr, DecidableEq

/-- Embeds the connection fields of SSHClient.__init__ (after stripping):
host, port, user, password. -/
structure ConnectionConfig where
  host : String
  port : Nat
  user : String
  password : String
deriving Repr, DecidableEq

/-- Embeds the SSHClient.configured property: bool(self.host and self.user and
self.password); a Python string is truthy iff non-empty. -/
def configured (cfg : ConnectionConfig) : Bool :=
  !cfg.host.isEmpty && !cfg.user.isEmpty && !cfg.password.isEmpty

/-- Embeds the result dict of SSHClient.execute.  Fields that a given code
path does not put into the dict are `none`. -/
structure ExecutionResult where
  success : Bool
  exit_code : Option Int := none
  stdout : Option String := none
  stderr : Option String := none
  error : Option String := none
deriving Repr, DecidableEq

/-- Oracle for the remote side: the outcome of each primitive paramiko call
made by the Python code.  `Except.error e` means the call raises `e`. -/
structure Env where
  /-- Outcome of client.exec_command(command, timeout). -/
  exec_command : Session → String → Nat → Except PyExc Streams
  /-- Outcome of stdout.channel.recv_exit_status(). -/
  recv_exit_status : Streams → Except PyExc Int
  /-- Outcome of decoding stdout.read() as UTF-8 with replacement. -/
  read_stdout : Streams → Except PyExc String
  /-- Outcome of decoding stderr.read() as UTF-8 with replacement. -/
  read_stderr : Streams → Except PyExc String
  /-- Outcome of client.close(). -/
  close : Session → Except PyExc Unit
  /-- Outcome of SSHClient._connect (the paramiko connect call). -/
  connect : Except PyExc Session

/-- Output of the _get_client embedding: the returned session or the escaped
exception, the new value of self._client, how many times _connect was called,
and the sessions on which close was attempted. -/
structure GetClientOut where
  result : Except PyExc Session
  client : Option Session
  connects : Nat
  closed : List Session
deriving Repr

/-- Embeds SSHClient._get_client: if a client is cached, probe it with
exec_command("echo", timeout=5); on probe failure close it (swallowing close
errors), clear the reference and connect anew; with no cached client, connect
directly.  A raise from _connect leaves self._client cleared. -/
def get_client (env : Env) (st : Option Session) : GetClientOut :=
  match st with
  | some c =>
    match env.exec_command c "echo" 5 with
    | Except.ok _ => ⟨Except.ok c, some c, 0, []⟩
    | Except.error _ =>
      match env.close c, env.connect with
      | _, Except.ok c2 => ⟨Except.ok c2, some c2, 1, [c]⟩
      | _, Except.error e => ⟨Except.error e, none, 1, [c]⟩
  | none =>
    match env.connect with
    | Except.ok c2 => ⟨Except.ok c2, some c2, 1, []⟩
    | Except.error e => ⟨Except.error e, none, 1, []⟩

/-- Output of the try block of SSHClient.execute: the built result dict or the
exception that escapes to the except clauses, plus the connection bookkeeping
of the get_client call inside the block. -/
structure TryOut where
  result : Except PyExc ExecutionResult
  client : Option Session
  connects : Nat
  closed : List Session
deriving Repr

/-- Embeds the try block of SSHClient.execute: acquire a client, run the
command, read the exit status and both streams, and build the success dict;
any raise at any step escapes as `Except.error`. -/
def execute_try (env : Env) (st : Option Session) (command : String)
    (timeout : Nat) : TryOut :=
  match get_client env st with
  | ⟨Except.error e, cl, n, cls⟩ => ⟨Except.error e, cl, n, cls⟩
  | ⟨Except.ok client, cl, n, cls⟩ =>
    match env.exec_command client command timeout with
    | Except.error e => ⟨Except.error e, cl, n, cls⟩
    | Except.ok streams =>
      match env.recv_exit_status streams with
      | Except.error e => ⟨Except.error e, cl, n, cls⟩
      | Except.ok exit_status =>
        match env.read_stdout streams with
        | Except.error e => ⟨Except.error e, cl, n, cls⟩
        | Except.ok stdout_text =>
          match env.read_stderr streams with
          | Except.error e => ⟨Except.error e, cl, n, cls⟩
          | Except.ok stderr_text =>
            ⟨Except.ok ⟨exit_status == 0, some exit_status, some stdout_text,
               some stderr_text, none⟩, cl, n, cls⟩

/-- Output of the execute embedding: the result dict, the new cached client,
and the connection bookkeeping. -/
structure ExecOut where
  result : ExecutionResult
  client : Option Session
  connects : Nat
  closed : List Session
deriving Repr, DecidableEq

/-- Embeds SSHClient.execute: refuse immediately when not configured, then run
the try block and map each escaping exception to its handler dict. -/
def execute (env : Env) (cfg : ConnectionConfig) (st : Option Session)
    (command : String) (timeout : Nat) : ExecOut :=
  if configured cfg then
    match execute_try env st command timeout with
    | ⟨Except.ok res, cl, n, cls⟩ => ⟨res, cl, n, cls⟩
    | ⟨Except.error (PyExc.authException _), cl, n, cls⟩ =>
      ⟨⟨false, none, none, none,
        some "Authentication failed. Check username and password."⟩, cl, n, cls⟩
    | ⟨Except.error (PyExc.sshException m), cl, n, cls⟩ =>
      ⟨⟨false, none, none, none, some ("SSH error: " ++ m)⟩, cl, n, cls⟩
    | ⟨Except.error (PyExc.otherException m), cl, n, cls⟩ =>
      ⟨⟨false, none, none, none, some ("Connection error: " ++ m)⟩, cl, n, cls⟩
  else
    ⟨⟨false, none, none, none,
      some "NAS credentials not configured. Set NAS_HOST, NAS_USER, and NAS_PASSWORD."⟩,
     st, 0, []⟩

/-- Embeds the Python str.isspace test of a single character, the set
str.strip() removes: tab through carriage return (including vertical tab and
form feed), the file through unit separators, space, next line, no-break
space, and the Unicode space separators (Ogham space mark, the en quad
through hair space range, line and paragraph separators, narrow no-break
space, medium mathematical space, ideographic space). -/
def pyIsSpace (c : Char) : Bool :=
  let n := c.toNat
  (9 ≤ n && n ≤ 13) || (28 ≤ n && n ≤ 31) || n == 32 || n == 133 ||
    n == 160 || n == 5760 || (8192 ≤ n && n ≤ 8202) || n == 8232 ||
    n == 8233 || n == 8239 || n == 8287 || n == 12288

/-- Embeds the Python str.strip() method with no argument: drop characters
satisfying str.isspace from both ends. -/
def pyStrip (s : String) : String :=
  ⟨(((s.data.dropWhile pyIsSpace).reverse.dropWhile pyIsSpace).reverse)⟩

/-- Embeds format_result of client.py.  Python truthiness of
result.get(key): the key is present and its value non-empty (success is a
genuine bool in every dict the code builds). -/
def format_result (r : ExecutionResult) : String :=
  if r.success then
    let output := ""
    let output := match r.stdout with
      | some s => if s = "" then output else output ++ s
      | none => output
    let output := match r.stderr with
      | some t =>
        if t = "" then output
        else (if output = "" then output else output ++ "\n") ++ "STDERR: " ++ t
      | none => output
    if pyStrip output = "" then "Command completed successfully (no output)"
    else pyStrip output
  else
    let err := r.error.getD "Unknown error"
    let st := r.stderr.getD ""
    "Error: " ++ err ++ (if st = "" then "" else "\n" ++ st)

/-- The single quote character, U+0027. -/
def squoteChar : Char := Char.ofNat 39

/-- One-character string holding a single quote. -/
def squote : String := String.singleton squoteChar

/-- The four-character replacement that write_file substitutes for each
single quote: quote, backslash, quote, quote. -/
def quoteEscape : String := squote ++ "\\" ++ squote ++ squote

/-- Embeds Python str.replace for a nonempty pattern old = o :: os: replace
non-overlapping occurrences from left to right. -/
def pyReplaceCore (o : Char) (os : List Char) (new : List Char) :
    List Char → List Char
  | [] => []
  | c :: rest =>
    if (o :: os).isPrefixOf (c :: rest) then
      new ++ pyReplaceCore o os new (rest.drop os.length)
    else
      c :: pyReplaceCore o os new rest
termination_by l => l.length
decreasing_by
  all_goals simp [List.length_drop]
  omega

/-- Embeds Python str.replace(old, new); with an empty pattern Python puts
new before, between and after every character. -/
def pyReplace (s old new : String) : String :=
  match old.data with
  | [] => ⟨new.data ++ (s.data.map (fun c => c :: new.data)).flatten⟩
  | o :: os => ⟨pyReplaceCore o os new.data s.data⟩

/-- Embeds the command construction of write_file in operations/files.py. -/
def write_file_cmd (path content : String) (append : Bool) : String :=
  let escaped := pyReplace content squote quoteEscape
  let operator := if append then ">>" else ">"
  "echo " ++ squote ++ escaped ++ squote ++ " " ++ operator ++ " " ++ path

/-- Embeds write_file of operations/files.py: run the built command via
execute (default timeout 30) and return the message. -/
def write_file (env : Env) (cfg : ConnectionConfig) (st : Option Session)
    (path content : String) (append : Bool) : String :=
  let out := execute env cfg st (write_file_cmd path content append) 30
  if out.result.success then "Successfully wrote to " ++ path
  else format_result out.result

/-- Embeds the command construction of read_file in operations/files.py;
Python `if lines:` is true iff lines is neither None nor 0. -/
def read_file_cmd (path : String) (lines : Option Int) : String :=
  match lines with
  | some n =>
    if n = 0 then "cat " ++ path
    else if n > 0 then "head -n " ++ toString n ++ " " ++ path
    else "tail -n " ++ toString n.natAbs ++ " " ++ path
  | none => "cat " ++ path

/-- Embeds read_file of operations/files.py: run the built command via
execute (default timeout 30) and format the result. -/
def read_file (env : Env) (cfg : ConnectionConfig) (st : Option Session)
    (path : String) (lines : Option Int) : String :=
  format_result (execute env cfg st (read_file_cmd path lines) 30).result

/-- Embeds the command construction of list_files in operations/files.py. -/
def list_files_cmd (path : String) (all : Bool) (long : Bool) : String :=
  let flags := if long then "-lh" else ""
  let flags := if all then flags ++ "a" else flags
  if flags.isEmpty then "ls " ++ path else "ls " ++ flags ++ " " ++ path

/-- Embeds list_files of operations/files.py. -/
def list_files (env : Env) (cfg : ConnectionConfig) (st : Option Session)
    (path : String) (all : Bool) (long : Bool) : String :=
  format_result (execute env cfg st (list_files_cmd path all long) 30).result

/-- Substring test used to state the containment wording of the spec: sub
occurs contiguously in s. -/
def strContains (s sub : String) : Bool := decide (sub.data <:+: s.data)

/-- Sample oracle on which every remote call succeeds with exit status 0. -/
def okEnv : Env where
  exec_command := fun _ _ _ => Except.ok 0
  recv_exit_status := fun _ => Except.ok 0
  read_stdout := fun _ => Except.ok "ok"
  read_stderr := fun _ => Except.ok ""
  close := fun _ => Except.ok ()
  connect := Except.ok 1

/-- Sample oracle on which the liveness probe and close both fail and
reconnecting raises an authentication exception. -/
def authFailEnv : Env where
  exec_command := fun _ _ _ => Except.error (PyExc.otherException "probe timed out")
  recv_exit_status := fun _ => Except.ok 0
  read_stdout := fun _ => Except.ok ""
  read_stderr := fun _ => Except.ok ""
  close := fun _ => Except.error (PyExc.otherException "close failed")
  connect := Except.error (PyExc.authException "bad password")

/-- Sample oracle on which the liveness probe fails and reconnecting raises a
non-authentication SSH exception. -/
def sshFailEnv : Env where
  exec_command := fun _ _ _ => Except.error (PyExc.otherException "probe timed out")
  recv_exit_status := fun _ => Except.ok 0
  read_stdout := fun _ => Except.ok ""
  read_stderr := fun _ => Except.ok ""
  close := fun _ => Except.ok ()
  connect := Except.error (PyExc.sshException "banner timeout")

/-- Sample fully configured ConnectionConfig. -/
def cfgOk : ConnectionConfig := ⟨"nas.local", 22, "admin", "pw"⟩

/-- Sample unconfigured ConnectionConfig (empty host). -/
def cfgNoHost : ConnectionConfig := ⟨"", 22, "admin", "pw"⟩

/-- Result dict built by the three except clauses of execute, by exception
class (used to state helper lemmas). -/
def handlerResult : PyExc → ExecutionResult
  | PyExc.authException _ =>
    ⟨false, none, none, none, some "Authentication failed. Check username and password."⟩
  | PyExc.sshException m => ⟨false, none, none, none, some ("SSH error: " ++ m)⟩
  | PyExc.otherException m => ⟨false, none, none, none, some ("Connection error: " ++ m)⟩

/-- Every dict the try block returns normally has the full ran-command shape:
success mirrors exit code zero and all three data fields are present. -/
theorem execute_try_ok_shape (env : Env) (st : Option Session) (command : String)
    (timeout : Nat) (res : ExecutionResult)
    (h : (execute_try env st command timeout).result = Except.ok res) :
    ∃ ec s t, res = ⟨ec == 0, some ec, some s, some t, none⟩ := by
  unfold execute_try at h
  rcases hg : get_client env st with ⟨r, cl, n, cls⟩
  rw [hg] at h
  rcases r with e | client
  · simp at h
  · simp at h
    rcases h1 : env.exec_command client command timeout with e | streams <;>
      rw [h1] at h <;> simp at h
    rcases h2 : env.recv_exit_status streams with e | ecode <;>
      rw [h2] at h <;> simp at h
    rcases h3 : env.read_stdout streams with e | s <;>
      rw [h3] at h <;> simp at h
    rcases h4 : env.read_stderr streams with e | t <;>
      rw [h4] at h <;> simp at h
    exact ⟨ecode, s, t, h.symm⟩

/-- When the try block raises, execute returns the handler dict for the
exception and keeps the bookkeeping of the try block. -/
theorem execute_of_try_error (env : Env) (cfg : ConnectionConfig) (st : Option Session)
    (command : String) (timeout : Nat) (e : PyExc)
    (hc : configured cfg = true)
    (h : (execute_try env st command timeout).result = Except.error e) :
    execute env cfg st command timeout =
      ⟨handlerResult e, (execute_try env st command timeout).client,
       (execute_try env st command timeout).connects,
       (execute_try env st command timeout).closed⟩ := by
  unfold execute
  rw [hc]
  rcases ht : execute_try env st command timeout with ⟨r, cl, n, cls⟩
  rw [ht] at h
  simp at h
  subst h
  cases e <;> simp [handlerResult]

/-- When the try block returns normally, execute passes its dict through. -/
theorem execute_of_try_ok (env : Env) (cfg : ConnectionConfig) (st : Option Session)
    (command : String) (timeout : Nat) (res : ExecutionResult)
    (hc : configured cfg = true)
    (h : (execute_try env st command timeout).result = Except.ok res) :
    execute env cfg st command timeout =
      ⟨res, (execute_try env st command timeout).client,
       (execute_try env st command timeout).connects,
       (execute_try env st command timeout).closed⟩ := by
  unfold execute
  rw [hc]
  rcases ht : execute_try env st command timeout with ⟨r, cl, n, cls⟩
  rw [ht] at h
  simp at h
  subst h
  simp

/-- Unconfigured credentials short-circuit execute before any remote call. -/
theorem execute_not_configured (env : Env) (cfg : ConnectionConfig) (st : Option Session)
    (command : String) (timeout : Nat) (hc : configured cfg = false) :
    execute env cfg st command timeout =
      ⟨⟨false, none, none, none,
        some "NAS credentials not configured. Set NAS_HOST, NAS_USER, and NAS_PASSWORD."⟩,
       st, 0, []⟩ := by
  simp [execute, hc]

/-- A failed liveness probe on a cached session closes it, clears it, and
makes exactly one fresh connection attempt, whose outcome decides the call. -/
theorem get_client_probe_dead (env : Env) (c : Session) (pe : PyExc)
    (hprobe : env.exec_command c "echo" 5 = Except.error pe) :
    get_client env (some c) =
      match env.connect with
      | Except.ok c2 => ⟨Except.ok c2, some c2, 1, [c]⟩
      | Except.error e => ⟨Except.error e, none, 1, [c]⟩ := by
  unfold get_client
  simp only [hprobe]
  cases env.close c <;> cases env.connect <;> rfl

/-- The outcome of closing the stale session never influences get_client. -/
theorem get_client_close_swallow (env : Env) (f : Session → Except PyExc Unit)
    (st : Option Session) :
    get_client { env with close := f } st = get_client env st := by
  unfold get_client
  cases st with
  | none => rfl
  | some c =>
    cases h : env.exec_command c "echo" 5 <;>
      cases hc : env.close c <;> cases hf : f c <;> cases hn : env.connect <;>
        simp [h, hc, hf, hn]

/-- The outcome of closing the stale session never influences execute. -/
theorem execute_close_swallow (env : Env) (f : Session → Except PyExc Unit)
    (cfg : ConnectionConfig) (st : Option Session) (command : String) (timeout : Nat) :
    execute { env with close := f } cfg st command timeout =
      execute env cfg st command timeout := by
  unfold execute execute_try
  rw [get_client_close_swallow]

/-- The try block keeps the client reference and connection bookkeeping
produced by get_client. -/
theorem execute_try_bookkeeping (env : Env) (st : Option Session)
    (command : String) (timeout : Nat) :
    (execute_try env st command timeout).client = (get_client env st).client ∧
    (execute_try env st command timeout).connects = (get_client env st).connects ∧
    (execute_try env st command timeout).closed = (get_client env st).closed := by
  refine ⟨?_, ?_, ?_⟩ <;> unfold execute_try <;> (repeat' split) <;> simp_all

/-- With configured credentials, execute keeps the client reference and
connection bookkeeping of the try block. -/
theorem execute_bookkeeping (env : Env) (cfg : ConnectionConfig)
    (st : Option Session) (command : String) (timeout : Nat)
    (hc : configured cfg = true) :
    (execute env cfg st command timeout).client =
      (execute_try env st command timeout).client ∧
    (execute env cfg st command timeout).connects =
      (execute_try env st command timeout).connects ∧
    (execute env cfg st command timeout).closed =
      (execute_try env st command timeout).closed := by
  refine ⟨?_, ?_, ?_⟩ <;> unfold execute <;> simp only [hc] <;>
    (repeat' split) <;> simp_all

/-- A get_client failure is returned unchanged by the try block. -/
theorem execute_try_of_get_client_error (env : Env) (st : Option Session)
    (command : String) (timeout : Nat) (e : PyExc) (cl : Option Session)
    (n : Nat) (cls : List Session)
    (h : get_client env st = ⟨Except.error e, cl, n, cls⟩) :
    execute_try env st command timeout = ⟨Except.error e, cl, n, cls⟩ := by
  unfold execute_try
  rw [h]

/-- Appending on the left of the empty string is the identity. -/
theorem str_empty_append (s : String) : "" ++ s = s := rfl

/-- A non-empty string has a non-empty character list. -/
theorem str_data_ne_nil (s : String) (h : s ≠ "") : s.data ≠ [] :=
  fun hd => h (String.ext (by simp [hd]))

/-- dropWhile does nothing on an append whose left part is non-empty and
already stable under dropWhile. -/
theorem dropWhile_append_of_stable (p : Char → Bool) (l r : List Char)
    (hl : l ≠ []) (h : l.dropWhile p = l) :
    (l ++ r).dropWhile p = l ++ r := by
  cases l with
  | nil => exact absurd rfl hl
  | cons a l2 =>
    have hpa : p a = false := by
      by_cases hp : p a = true
      · rw [List.dropWhile_cons, if_pos hp] at h
        have hle := (List.dropWhile_sublist (l := l2) p).length_le
        rw [h] at hle
        simp at hle
      · exact Bool.eq_false_iff.mpr hp
    rw [List.cons_append, List.dropWhile_cons, if_neg (by simp [hpa])]

/-- pyStrip is the identity on a string with no whitespace at either end. -/
theorem pyStrip_eq_self (x : String)
    (h1 : x.data.dropWhile pyIsSpace = x.data)
    (h2 : x.data.reverse.dropWhile pyIsSpace = x.data.reverse) :
    pyStrip x = x := by
  unfold pyStrip
  rw [h1, h2, List.reverse_reverse]

/-- Replacing a one-character pattern rewrites each matching character to the
replacement and keeps every other character. -/
theorem pyReplaceCore_single (o : Char) (new : List Char) (l : List Char) :
    pyReplaceCore o [] new l =
      (l.map (fun c => if c = o then new else [c])).flatten := by
  induction l with
  | nil => simp [pyReplaceCore]
  | cons c rest ih =>
    by_cases hc : c = o
    · subst hc
      simp only [pyReplaceCore, List.isPrefixOf, List.map_cons, List.flatten_cons]
      simp [ih]
    · simp only [pyReplaceCore, List.isPrefixOf, List.map_cons, List.flatten_cons]
      simp [ih, hc, Ne.symm hc]

/-- C1: with configured credentials, execute never lets an exception escape
and classifies every failure of the try block: an authentication failure
maps to the fixed message, any other SSH failure to the SSH error message,
and any other exception to the connection error message. -/
theorem C1_execute_classifies_all_failures (env : Env) (cfg : ConnectionConfig)
    (st : Option Session) (command : String) (timeout : Nat)
    (hc : configured cfg = true) :
    (∀ m, (execute_try env st command timeout).result =
        Except.error (PyExc.authException m) →
      (execute env cfg st command timeout).result =
        ⟨false, none, none, none,
         some "Authentication failed. Check username and password."⟩) ∧
    (∀ m, (execute_try env st command timeout).result =
        Except.error (PyExc.sshException m) →
      (execute env cfg st command timeout).result =
        ⟨false, none, none, none, some ("SSH error: " ++ m)⟩) ∧
    (∀ m, (execute_try env st command timeout).result =
        Except.error (PyExc.otherException m) →
      (execute env cfg st command timeout).result =
        ⟨false, none, none, none, some ("Connection error: " ++ m)⟩) := by
  refine ⟨fun m h => ?_, fun m h => ?_, fun m h => ?_⟩ <;>
    rw [execute_of_try_error env cfg st command timeout _ hc h] <;> rfl

/-- Witness for C1: on the sample oracle whose reconnect raises an
authentication exception, execute returns the authentication error dict. -/
theorem C1_witness :
    (execute authFailEnv cfgOk (some 7) "ls" 30).result =
      ⟨false, none, none, none,
       some "Authentication failed. Check username and password."⟩ :=
  (C1_execute_classifies_all_failures authFailEnv cfgOk (some 7) "ls" 30
    (by decide)).1 "bad password" rfl

/-- C2: every result dict of execute satisfies the shape invariant: when the
error key is set the three data keys are absent, when it is absent the three
data keys are present and success mirrors exit code zero, and the error key
is set exactly when the command could not be run (unconfigured credentials
or an exception in the try block). -/
theorem C2_result_shape_invariant (env : Env) (cfg : ConnectionConfig)
    (st : Option Session) (command : String) (timeout : Nat) :
    ((execute env cfg st command timeout).result.error.isSome = true →
      (execute env cfg st command timeout).result.exit_code = none ∧
      (execute env cfg st command timeout).result.stdout = none ∧
      (execute env cfg st command timeout).result.stderr = none) ∧
    ((execute env cfg st command timeout).result.error = none →
      ∃ ec s t, (execute env cfg st command timeout).result =
        ⟨ec == 0, some ec, some s, some t, none⟩) ∧
    ((execute env cfg st command timeout).result.error.isSome = true ↔
      (configured cfg = false ∨
        ∃ e, (execute_try env st command timeout).result = Except.error e)) := by
  cases hc : configured cfg
  · rw [execute_not_configured env cfg st command timeout hc]
    exact ⟨fun _ => ⟨rfl, rfl, rfl⟩, fun h => by simp at h, by simp⟩
  · rcases ht : (execute_try env st command timeout).result with e | res
    · rw [execute_of_try_error env cfg st command timeout e hc ht]
      cases e <;>
        exact ⟨fun _ => ⟨rfl, rfl, rfl⟩, fun h => by simp [handlerResult] at h,
               by simp [handlerResult, ht]⟩
    · rw [execute_of_try_ok env cfg st command timeout res hc ht]
      obtain ⟨ec, s, t, rfl⟩ :=
        execute_try_ok_shape env st command timeout res ht
      refine ⟨fun h => by simp at h, fun _ => ⟨ec, s, t, rfl⟩, ?_⟩
      simp [hc, ht]

/-- Witness for C2: the invariant evaluated on the all-success oracle and on
the authentication-failure oracle. -/
theorem C2_witness :
    (execute okEnv cfgOk none "ls" 30).result.error = none ∧
    (∃ ec s t, (execute okEnv cfgOk none "ls" 30).result =
      ⟨ec == 0, some ec, some s, some t, none⟩) ∧
    ((execute authFailEnv cfgOk (some 7) "ls" 30).result.error.isSome = true →
      (execute authFailEnv cfgOk (some 7) "ls" 30).result.exit_code = none ∧
      (execute authFailEnv cfgOk (some 7) "ls" 30).result.stdout = none ∧
      (execute authFailEnv cfgOk (some 7) "ls" 30).result.stderr = none) :=
  ⟨rfl,
   (C2_result_shape_invariant okEnv cfgOk none "ls" 30).2.1 rfl,
   (C2_result_shape_invariant authFailEnv cfgOk (some 7) "ls" 30).1⟩

/-- C3: with an unconfigured ConnectionConfig, execute returns the fixed
not-configured error dict immediately, leaves the stored client reference
unchanged, makes no connection attempt and closes nothing; the message
contains the words not configured. -/
theorem C3_not_configured_refuses (env : Env) (cfg : ConnectionConfig)
    (st : Option Session) (command : String) (timeout : Nat)
    (hc : configured cfg = false) :
    execute env cfg st command timeout =
      ⟨⟨false, none, none, none,
        some "NAS credentials not configured. Set NAS_HOST, NAS_USER, and NAS_PASSWORD."⟩,
       st, 0, []⟩ ∧
    strContains
      "NAS credentials not configured. Set NAS_HOST, NAS_USER, and NAS_PASSWORD."
      "not configured" = true :=
  ⟨execute_not_configured env cfg st command timeout hc, by decide⟩

/-- Witness for C3: the empty-host sample configuration is refused and the
cached session reference is kept as it was. -/
theorem C3_witness :
    configured cfgNoHost = false ∧
    execute okEnv cfgNoHost (some 3) "ls" 30 =
      ⟨⟨false, none, none, none,
        some "NAS credentials not configured. Set NAS_HOST, NAS_USER, and NAS_PASSWORD."⟩,
       some 3, 0, []⟩ :=
  ⟨by decide,
   (C3_not_configured_refuses okEnv cfgNoHost (some 3) "ls" 30 (by decide)).1⟩

/-- C4 counterexample: a successful result whose stdout ends in a newline is
trimmed by format_result, so the formatted text does not contain the stdout
text verbatim. -/
theorem C4_counterexample :
    format_result ⟨true, some 0, some "hi\n", some "", none⟩ = "hi" ∧
    strContains "hi" "hi\n" = false := by
  constructor
  · rfl
  · decide

/-- C4 (amended): for a successful result whose stdout carries no leading or
trailing whitespace and whose stderr carries no trailing whitespace, the
formatted text contains stdout verbatim and, when stderr is non-empty, the
marker STDERR followed by stderr after the stdout text. -/
theorem C4_success_output_contains (ec : Option Int) (err : Option String)
    (s t : String)
    (hs1 : s.data.dropWhile pyIsSpace = s.data)
    (hs2 : s.data.reverse.dropWhile pyIsSpace = s.data.reverse)
    (ht2 : t.data.reverse.dropWhile pyIsSpace = t.data.reverse) :
    ∃ p q, (format_result ⟨true, ec, some s, some t, err⟩).data =
        p ++ s.data ++ q ∧
      (t ≠ "" → ∃ u v, q = u ++ ("STDERR: " ++ t).data ++ v) := by
  by_cases ht : t = ""
  · subst ht
    by_cases hs : s = ""
    · subst hs
      refine ⟨"Command completed successfully (no output)".data, [], by rfl, ?_⟩
      intro h; exact absurd rfl h
    · have hfr : format_result ⟨true, ec, some s, some "", err⟩ = s := by
        simp only [format_result, str_empty_append, eq_self_iff_true, if_true,
          if_false, hs]
        rw [pyStrip_eq_self s hs1 hs2, if_neg hs]
      refine ⟨[], [], ?_, ?_⟩
      · rw [hfr]; simp
      · intro h; exact absurd rfl h
  · by_cases hs : s = ""
    · subst hs
      have h1 : (("STDERR: " ++ t).data).dropWhile pyIsSpace =
          ("STDERR: " ++ t).data := by
        rw [String.data_append]
        exact dropWhile_append_of_stable _ _ _ (by decide) (by decide)
      have h2 : (("STDERR: " ++ t).data).reverse.dropWhile pyIsSpace =
          (("STDERR: " ++ t).data).reverse := by
        rw [String.data_append, List.reverse_append]
        exact dropWhile_append_of_stable _ _ _
          (by simp [str_data_ne_nil t ht]) ht2
      have hne : ("STDERR: " ++ t) ≠ "" := by
        intro h
        have := congrArg String.data h
        simp [String.data_append] at this
      have hfr : format_result ⟨true, ec, some "", some t, err⟩ =
          "STDERR: " ++ t := by
        simp only [format_result, str_empty_append, eq_self_iff_true, if_true,
          if_false, ht]
        rw [pyStrip_eq_self _ h1 h2, if_neg hne]
      refine ⟨[], ("STDERR: " ++ t).data, ?_, ?_⟩
      · rw [hfr]; simp
      · intro _; exact ⟨[], [], by simp⟩
    · have hXdata : ((s ++ "\n") ++ "STDERR: " ++ t).data =
          s.data ++ ("\n".data ++ ("STDERR: ".data ++ t.data)) := by
        simp [String.data_append, List.append_assoc]
      have h1 : (((s ++ "\n") ++ "STDERR: " ++ t).data).dropWhile
          pyIsSpace = ((s ++ "\n") ++ "STDERR: " ++ t).data := by
        rw [hXdata]
        exact dropWhile_append_of_stable _ _ _ (str_data_ne_nil s hs) hs1
      have h2 : (((s ++ "\n") ++ "STDERR: " ++ t).data).reverse.dropWhile
          pyIsSpace = (((s ++ "\n") ++ "STDERR: " ++ t).data).reverse := by
        rw [hXdata]
        simp only [List.reverse_append, List.append_assoc]
        exact dropWhile_append_of_stable _ _ _
          (by simp [str_data_ne_nil t ht]) ht2
      have hne : ((s ++ "\n") ++ "STDERR: " ++ t) ≠ "" := by
        intro h
        have := congrArg String.data h
        rw [hXdata] at this
        simp [str_data_ne_nil s hs] at this
      have hfr : format_result ⟨true, ec, some s, some t, err⟩ =
          (s ++ "\n") ++ "STDERR: " ++ t := by
        simp only [format_result, str_empty_append, eq_self_iff_true, if_true,
          if_false, hs, ht]
        rw [pyStrip_eq_self _ h1 h2, if_neg hne]
      refine ⟨[], "\n".data ++ ("STDERR: ".data ++ t.data), ?_, ?_⟩
      · rw [hfr, hXdata]; simp
      · intro _
        exact ⟨"\n".data, [], by simp [String.data_append, List.append_assoc]⟩

/-- Witness for C4: the amended containment statement evaluated on a plain
stdout and stderr pair. -/
theorem C4_witness :
    "hello".data.dropWhile pyIsSpace = "hello".data ∧
    "hello".data.reverse.dropWhile pyIsSpace = "hello".data.reverse ∧
    "warn".data.reverse.dropWhile pyIsSpace = "warn".data.reverse ∧
    ∃ p q, (format_result ⟨true, some 0, some "hello", some "warn", none⟩).data =
        p ++ "hello".data ++ q ∧
      ("warn" ≠ "" → ∃ u v, q = u ++ ("STDERR: " ++ "warn").data ++ v) :=
  ⟨by decide, by decide, by decide,
   C4_success_output_contains (some 0) none "hello" "warn"
     (by decide) (by decide) (by decide)⟩

/-- C5 counterexample: when the cached session fails the probe and the single
reconnect raises an authentication exception, the returned error is the
authentication message, which is neither SSH error nor Connection error
shaped. -/
theorem C5_counterexample :
    authFailEnv.exec_command 7 "echo" 5 =
      Except.error (PyExc.otherException "probe timed out") ∧
    authFailEnv.connect = Except.error (PyExc.authException "bad password") ∧
    (execute authFailEnv cfgOk (some 7) "ls" 30).connects = 1 ∧
    (execute authFailEnv cfgOk (some 7) "ls" 30).result.error =
      some "Authentication failed. Check username and password." ∧
    List.isPrefixOf "SSH error: ".data
      "Authentication failed. Check username and password.".data = false ∧
    List.isPrefixOf "Connection error: ".data
      "Authentication failed. Check username and password.".data = false :=
  ⟨rfl, rfl, rfl, rfl, by decide, by decide⟩

/-- C5 (amended): a failed liveness probe on a cached session closes exactly
that session, with the close outcome never influencing the call, clears the
reference and makes exactly one reconnect attempt; if the reconnect raises,
execute returns a dict with error set to the handler message of the raised
exception class, never an unhandled exception. -/
theorem C5_probe_failure_single_reconnect (env : Env) (cfg : ConnectionConfig)
    (c : Session) (command : String) (timeout : Nat) (pe : PyExc)
    (hc : configured cfg = true)
    (hprobe : env.exec_command c "echo" 5 = Except.error pe) :
    (execute env cfg (some c) command timeout).closed = [c] ∧
    (execute env cfg (some c) command timeout).connects = 1 ∧
    (∀ f, execute { env with close := f } cfg (some c) command timeout =
      execute env cfg (some c) command timeout) ∧
    (∀ e2, env.connect = Except.error e2 →
      (execute env cfg (some c) command timeout).client = none ∧
      (execute env cfg (some c) command timeout).result =
        ⟨false, none, none, none,
         some (match e2 with
           | PyExc.authException _ =>
             "Authentication failed. Check username and password."
           | PyExc.sshException m => "SSH error: " ++ m
           | PyExc.otherException m => "Connection error: " ++ m)⟩) := by
  have hgc := get_client_probe_dead env c pe hprobe
  have hbk := execute_bookkeeping env cfg (some c) command timeout hc
  have htbk := execute_try_bookkeeping env (some c) command timeout
  refine ⟨?_, ?_, fun f => execute_close_swallow env f cfg (some c) command timeout, ?_⟩
  · rw [hbk.2.2, htbk.2.2, hgc]
    cases env.connect <;> rfl
  · rw [hbk.2.1, htbk.2.1, hgc]
    cases env.connect <;> rfl
  · intro e2 hconn
    have hg2 : get_client env (some c) = ⟨Except.error e2, none, 1, [c]⟩ := by
      rw [hgc, hconn]
    have htry : execute_try env (some c) command timeout =
        ⟨Except.error e2, none, 1, [c]⟩ :=
      execute_try_of_get_client_error env (some c) command timeout e2 none 1 [c] hg2
    have hex := execute_of_try_error env cfg (some c) command timeout e2 hc
      (by rw [htry])
    rw [hex]
    refine ⟨by rw [htry], ?_⟩
    cases e2 <;> rfl

/-- Witness for C5: evaluated on the sample oracle whose probe fails and
whose reconnect raises a non-authentication SSH exception. -/
theorem C5_witness :
    configured cfgOk = true ∧
    sshFailEnv.exec_command 7 "echo" 5 =
      Except.error (PyExc.otherException "probe timed out") ∧
    (execute sshFailEnv cfgOk (some 7) "ls" 30).closed = [7] ∧
    (execute sshFailEnv cfgOk (some 7) "ls" 30).connects = 1 ∧
    (execute sshFailEnv cfgOk (some 7) "ls" 30).client = none ∧
    (execute sshFailEnv cfgOk (some 7) "ls" 30).result =
      ⟨false, none, none, none, some ("SSH error: " ++ "banner timeout")⟩ := by
  have h := C5_probe_failure_single_reconnect sshFailEnv cfgOk 7 "ls" 30
    (PyExc.otherException "probe timed out") (by decide) rfl
  exact ⟨by decide, rfl, h.1, h.2.1,
    (h.2.2.2 (PyExc.sshException "banner timeout") rfl).1,
    (h.2.2.2 (PyExc.sshException "banner timeout") rfl).2⟩

/-- C6: write_file escapes each single quote of the content as the four
character sequence quote backslash quote quote, interpolates the escaped
content into an echo redirection command with the append operator chosen by
the flag, and returns the success message naming the path when the executed
command succeeds. -/
theorem C6_write_file_escapes_and_reports (env : Env) (cfg : ConnectionConfig)
    (st : Option Session) (path content : String) (append : Bool) :
    write_file_cmd path content append =
      "echo " ++ squote ++
        String.mk ((content.data.map
          (fun ch => if ch = squoteChar then quoteEscape.data else [ch])).flatten) ++
        squote ++ " " ++ (if append then ">>" else ">") ++ " " ++ path ∧
    ((execute env cfg st (write_file_cmd path content append) 30).result.success
        = true →
      write_file env cfg st path content append =
        "Successfully wrote to " ++ path) := by
  constructor
  · unfold write_file_cmd pyReplace
    simp only [show squote.data = [squoteChar] from rfl]
    rw [pyReplaceCore_single]
  · intro h
    unfold write_file
    simp [h]

/-- Witness for C6: content with one single quote produces the escaped echo
command and the success message on the all-success oracle. -/
theorem C6_witness :
    write_file_cmd "/tmp/x" ("it" ++ squote ++ "s") false =
      "echo " ++ squote ++ ("it" ++ squote ++ "\\" ++ squote ++ squote ++ "s") ++
        squote ++ " > /tmp/x" ∧
    (execute okEnv cfgOk none
      (write_file_cmd "/tmp/x" ("it" ++ squote ++ "s") false) 30).result.success
      = true ∧
    write_file okEnv cfgOk none "/tmp/x" ("it" ++ squote ++ "s") false =
      "Successfully wrote to /tmp/x" := by
  refine ⟨?_, rfl, ?_⟩
  · have h := (C6_write_file_escapes_and_reports okEnv cfgOk none "/tmp/x"
      ("it" ++ squote ++ "s") false).1
    rw [h]
    decide
  · exact (C6_write_file_escapes_and_reports okEnv cfgOk none "/tmp/x"
      ("it" ++ squote ++ "s") false).2 rfl

/-- C7: read_file builds head -n N for positive line counts, tail -n with the
absolute value for negative ones, and cat when no count is given. -/
theorem C7_read_file_commands (path : String) (n : Int) :
    (0 < n → read_file_cmd path (some n) = "head -n " ++ toString n ++ " " ++ path) ∧
    (n < 0 → read_file_cmd path (some n) =
      "tail -n " ++ toString n.natAbs ++ " " ++ path) ∧
    read_file_cmd path none = "cat " ++ path := by
  refine ⟨fun h => ?_, fun h => ?_, rfl⟩ <;>
    simp only [read_file_cmd] <;>
    rw [if_neg (by omega)]
  · rw [if_pos (by omega : n > 0)]
  · rw [if_neg (by omega : ¬ n > 0)]

/-- Witness for C7: the three command shapes at counts five and minus five. -/
theorem C7_witness :
    read_file_cmd "/etc/hosts" (some 5) = "head -n 5 /etc/hosts" ∧
    read_file_cmd "/etc/hosts" (some (-5)) = "tail -n 5 /etc/hosts" :=
  ⟨((C7_read_file_commands "/etc/hosts" 5).1 (by decide)).trans (by decide),
   ((C7_read_file_commands "/etc/hosts" (-5)).2.1 (by decide)).trans (by decide)⟩

/-- C8: a result that ran and exited non-zero, so success is false and no
error key is set, formats as Error: Unknown error, followed by a newline and
the stderr text exactly when stderr is present and non-empty; the stdout
field never influences the text. -/
theorem C8_nonzero_exit_formats_unknown_error (ec : Option Int)
    (out : Option String) (t : Option String) :
    format_result ⟨false, ec, out, t, none⟩ =
      "Error: Unknown error" ++
        (match t with
         | some s => if s = "" then "" else "\n" ++ s
         | none => "") := by
  cases t <;> rfl

/-- C9: list_files with the long flag off and the all flag on produces the
command ls a path, where the a carries no leading dash. -/
theorem C9_list_files_all_without_dash (path : String) :
    list_files_cmd path true false = "ls a " ++ path := rfl

/-- C10: read_file treats a line count of zero like an absent count and
issues cat. -/
theorem C10_read_file_zero_lines_is_cat (path : String) :
    read_file_cmd path (some 0) = "cat " ++ path ∧
    read_file_cmd path (some 0) = read_file_cmd path none :=
  ⟨rfl, rfl⟩
